import Mathlib

/-!
Verification development for the client-side script of the personal-trainer
landing page (`src/script.js`).  The repository ships two variants of the
script (two `script.js` revisions concatenated in the source snapshot);
definitions suffixed `1` embed the first variant (10-second abort timer,
timeout-specific error label) and definitions suffixed `2` embed the second
variant (no timeout, `.btn-text` label node, scroll-lock handling).

The embedding is shallow: each DOM event handler becomes a pure function on
an explicit state record, and the asynchronous submission flow becomes a
timed trace — a list of `(time, state)` snapshots produced by one submission
attempt, with `stateAt` reading the state in effect at a given millisecond.
-/

namespace PT

/-! ## Contact form: state model -/

/-- Presentation state of the submit button: its visible label, its
`disabled` flag and its inline `opacity` style. -/
structure BtnState where
  label : String
  disabled : Bool
  opacity : String
deriving DecidableEq, Repr

/-- Observable state of the contact form: the submit button, the list of
field values, the number of `.form-success-overlay` elements appended to the
form, and whether the overlay currently carries the `active` class. -/
structure FormModel where
  btn : BtnState
  fields : List String
  overlays : Nat
  overlayActive : Bool
deriving DecidableEq, Repr

/-- Body of an HTTP response: its `ok` flag and the optional `error` field
of its JSON body. -/
structure HttpResponse where
  ok : Bool
  errorMsg : Option String
deriving DecidableEq, Repr

/-- What the network does for one submission attempt: either a response
arrives at time `t` (milliseconds after the POST was issued), or the
connection fails at time `t`. -/
inductive NetEvent where
  | response (t : Nat) (resp : HttpResponse)
  | netFail (t : Nat)
deriving DecidableEq, Repr

/-- Time at which the network event would settle the fetch, ignoring any
abort timer. -/
def NetEvent.arrival : NetEvent → Nat
  | .response t _ => t
  | .netFail t => t

/-- `setTimeout(() => controller.abort(), 10000)` in variant 1. -/
def timeoutMs : Nat := 10000

/-- `setTimeout(..., 3000)` reverting the button after a failure. -/
def revertMs : Nat := 3000

/-- `setTimeout(() => successMessage.classList.add('active'), 10)`. -/
def overlayDelayMs : Nat := 10

def sendingLabel1 : String := "Initializing Protocol..."
def sendingLabel2 : String := "Sending..."
def timeoutLabel : String := "Timeout - Try Again"
def errorLabel : String := "Error - Try Again"

/-! ## Variant 1 submission flow -/

/-- How the `try`/`catch` of variant 1 classifies the settled fetch. -/
inductive Settled1 where
  | success
  | httpErr (msg : Option String)
  | netErr
  | aborted
deriving DecidableEq, Repr

/-- Settlement of variant 1's fetch under the 10-second abort timer: the
settlement time, the classification, and whether `clearTimeout(timeoutId)`
ran on that path (line 208 in the response branch, line 224 in the catch
branch). If nothing settles the fetch before `timeoutMs`, the timer fires,
`controller.abort()` rejects the fetch with an `AbortError`, and the catch
branch runs at `timeoutMs`. -/
def settle1full (ev : NetEvent) : Nat × Settled1 × Bool :=
  match ev with
  | .response t r =>
      if t < timeoutMs then
        if r.ok then (t, Settled1.success, true)
        else (t, Settled1.httpErr r.errorMsg, true)
      else (timeoutMs, Settled1.aborted, true)
  | .netFail t =>
      if t < timeoutMs then (t, Settled1.netErr, true)
      else (timeoutMs, Settled1.aborted, true)

/-- Settlement time and classification for variant 1. -/
def settle1 (ev : NetEvent) : Nat × Settled1 :=
  ((settle1full ev).1, (settle1full ev).2.1)

/-- Synchronous part of variant 1's submit handler: label
`'Initializing Protocol...'`, `disabled = true`, `opacity = '0.7'`. -/
def submitState1 (s : FormModel) : FormModel :=
  { s with btn := { label := sendingLabel1, disabled := true, opacity := "0.7" } }

/-- `showSuccessMessage`: append one `.form-success-overlay` to the form,
not yet carrying the `active` class. -/
def appendOverlay (s : FormModel) : FormModel :=
  { s with overlays := s.overlays + 1, overlayActive := false }

/-- The delayed `classList.add('active')` on the overlay. -/
def activateOverlay (s : FormModel) : FormModel :=
  { s with overlayActive := true }

/-- `form.reset()`: every field goes back to its (empty) default value. -/
def resetFields (s : FormModel) : FormModel :=
  { s with fields := s.fields.map (fun _ => "") }

/-- The close button of the overlay:
`this.closest('.form-success-overlay').remove()`. -/
def closeOverlay (s : FormModel) : FormModel :=
  { s with overlays := s.overlays - 1 }

/-- State update variant 1 performs synchronously when the fetch settles.
On success: show the overlay, reset the form, restore the button (label
back to `orig`, re-enabled, opacity `'1'`).  On any error: set the error
label (timeout-specific for an abort), opacity `'1'`, `disabled` untouched. -/
def resolveState1 (orig : String) (s : FormModel) : Settled1 → FormModel
  | .success =>
      let s := resetFields (appendOverlay s)
      { s with btn := { label := orig, disabled := false, opacity := "1" } }
  | .httpErr _ => { s with btn := { s.btn with label := errorLabel, opacity := "1" } }
  | .netErr => { s with btn := { s.btn with label := errorLabel, opacity := "1" } }
  | .aborted => { s with btn := { s.btn with label := timeoutLabel, opacity := "1" } }

/-- The delayed revert in the catch branch: restore the label, re-enable. -/
def revertBtn (orig : String) (s : FormModel) : FormModel :=
  { s with btn := { s.btn with label := orig, disabled := false } }

/-- Timed trace of one variant-1 submission attempt: snapshots at the
submit event (time 0), at fetch settlement, and at the delayed follow-up
(overlay activation on success, button revert on failure). -/
def trace1 (init : FormModel) (ev : NetEvent) : List (Nat × FormModel) :=
  if (settle1 ev).2 = Settled1.success then
    [(0, submitState1 init),
     ((settle1 ev).1, resolveState1 init.btn.label (submitState1 init) (settle1 ev).2),
     ((settle1 ev).1 + overlayDelayMs,
      activateOverlay (resolveState1 init.btn.label (submitState1 init) (settle1 ev).2))]
  else
    [(0, submitState1 init),
     ((settle1 ev).1, resolveState1 init.btn.label (submitState1 init) (settle1 ev).2),
     ((settle1 ev).1 + revertMs,
      revertBtn init.btn.label (resolveState1 init.btn.label (submitState1 init) (settle1 ev).2))]

/-- State in effect at time `t`: the last snapshot whose timestamp is
`≤ t` (`init` if none is). -/
def stateAt (init : FormModel) (tr : List (Nat × FormModel)) (t : Nat) : FormModel :=
  tr.foldl (fun cur p => if p.1 ≤ t then p.2 else cur) init

/-! ## Variant 2 submission flow -/

/-- Variant 2 classifies the settled fetch as success or failure only:
a non-ok response throws `Error('Submission failed')` and a network failure
rejects; both land in the same catch branch.  There is no abort timer. -/
inductive Settled2 where
  | success
  | failure
deriving DecidableEq, Repr

/-- Settlement of variant 2's fetch: at the network event's own time. -/
def settle2 (ev : NetEvent) : Nat × Settled2 :=
  match ev with
  | .response t r => (t, if r.ok then Settled2.success else Settled2.failure)
  | .netFail t => (t, Settled2.failure)

/-- Synchronous part of variant 2's submit handler: label `'Sending...'`,
`disabled = true`; the opacity style is not touched. -/
def submitState2 (s : FormModel) : FormModel :=
  { s with btn := { s.btn with label := sendingLabel2, disabled := true } }

/-- State update variant 2 performs when the fetch settles.  On success:
show the overlay and reset the form — the button is left as it was
(still disabled, still labelled `'Sending...'`).  On failure: set the
error label; `disabled` untouched. -/
def resolveState2 (s : FormModel) : Settled2 → FormModel
  | .success => resetFields (appendOverlay s)
  | .failure => { s with btn := { s.btn with label := errorLabel } }

/-- Timed trace of one variant-2 submission attempt. -/
def trace2 (init : FormModel) (ev : NetEvent) : List (Nat × FormModel) :=
  if (settle2 ev).2 = Settled2.success then
    [(0, submitState2 init),
     ((settle2 ev).1, resolveState2 (submitState2 init) (settle2 ev).2),
     ((settle2 ev).1 + overlayDelayMs,
      activateOverlay (resolveState2 (submitState2 init) (settle2 ev).2))]
  else
    [(0, submitState2 init),
     ((settle2 ev).1, resolveState2 (submitState2 init) (settle2 ev).2),
     ((settle2 ev).1 + revertMs,
      revertBtn init.btn.label (resolveState2 (submitState2 init) (settle2 ev).2))]

/-! ## Protocol selection (variant 2: `updateProtocolSelection`) -/

/-- State touched by variant 2's selection logic: the value of the
`#program` select and the `.selector-item` elements, each as its
`data-value` attribute paired with whether it carries the `active` class. -/
structure SelState where
  programValue : String
  items : List (String × Bool)
deriving DecidableEq, Repr

/-- `updateProtocolSelection(value)` (scroll side effects aside): set the
select's value, then for each `.selector-item` toggle `active` to whether
its `data-value` equals `value`. -/
def updateProtocolSelection (value : String) (s : SelState) : SelState :=
  { programValue := value,
    items := s.items.map (fun it => (it.1, it.1 == value)) }

/-- A click on a card or selector item in variant 2: read its `data-value`
(`none` models a missing attribute); a missing or empty value is falsy in
`if (val)`, so the handler does nothing. -/
def selectorClick (dataValue : Option String) (s : SelState) : SelState :=
  match dataValue with
  | none => s
  | some v => if v == "" then s else updateProtocolSelection v s

/-- Variant 1's card click, step 1 only: `if (!protocolValue) return;` then
`programSelect.value = protocolValue`. -/
def cardClick1Value (dataValue : Option String) (programValue : String) : String :=
  match dataValue with
  | none => programValue
  | some v => if v == "" then programValue else v

/-! ## Initializer guards and event-time element lookups (C5) -/

/-- DOM elements variant 1's card-click handler touches after its
initializer's guard (`!cards.length || !programSelect`) has passed:
whether `#contact` and `.contact-form` exist, the select's value, and the
two highlight classes the handler adds. -/
structure Dom1 where
  programValue : String
  contactPresent : Bool
  contactFormPresent : Bool
  formHighlight : Bool
  selectHighlight : Bool
deriving DecidableEq, Repr

/-- Variant 1's card-click handler, with the exceptions it can raise.
After setting the select's value it calls
`contactSection.getBoundingClientRect()` with no null check, and then
`form.classList.add(...)` on `document.querySelector('.contact-form')`,
also unchecked: either lookup failing throws a `TypeError`. -/
def cardClick1 (dataValue : Option String) (d : Dom1) : Except String Dom1 :=
  match dataValue with
  | none => .ok d
  | some v =>
      if v == "" then .ok d
      else
        let d := { d with programValue := v }
        if d.contactPresent then
          if d.contactFormPresent then
            .ok { d with formHighlight := true, selectHighlight := true }
          else .error "TypeError: form is null"
        else .error "TypeError: contactSection is null"

/-- Guard of variant 1's `initProtocolSelection`: listeners are attached
only when there is at least one `.program-card` and `#program` exists. -/
def initProtocolSelection1attaches (cards : List (Option String)) (programSelect : Bool) : Bool :=
  !cards.isEmpty && programSelect

/-- Guard of variant 2's `initProtocolSelection`: only `#program` is
required. -/
def initProtocolSelection2attaches (programSelect : Bool) : Bool :=
  programSelect

/-- Guard of `initContactForm` (both variants): `#contact-form` must exist. -/
def initContactFormAttaches (contactForm : Bool) : Bool :=
  contactForm

/-- Guard of `initStickyHeader` (both variants): `#main-header` must exist. -/
def initStickyHeaderAttaches (header : Bool) : Bool :=
  header

/-- Guard of `initMobileMenu` (both variants): both `#menu-toggle` and
`#main-nav` must exist. -/
def initMobileMenuAttaches (menuToggle nav : Bool) : Bool :=
  menuToggle && nav

/-- State variant 2's anchor-click handler touches: nav/menu classes, the
body scroll lock, and whether the various elements exist. -/
structure Dom2 where
  headerPresent : Bool
  navPresent : Bool
  navActive : Bool
  toggleOpen : Bool
  ariaExpanded : String
  bodyOverflow : String
deriving DecidableEq, Repr

/-- Variant 2's anchor-click handler on a link with `href` = `targetId`.
`'#'` and `''` return early; a missing target element returns early; then
`document.querySelector('#main-header').offsetHeight` throws a `TypeError`
when `#main-header` is absent (the `|| 80` only covers a falsy
`offsetHeight`, not a null element); finally the mobile menu is closed if
it is open, clearing the body scroll lock. -/
def anchorClick2 (targetId : String) (targetPresent : Bool) (d : Dom2) : Except String Dom2 :=
  if targetId == "#" || targetId == "" then .ok d
  else if !targetPresent then .ok d
  else if !d.headerPresent then .error "TypeError: header is null"
  else if d.navPresent && d.navActive then
    .ok { d with navActive := false, toggleOpen := false,
                 ariaExpanded := "false", bodyOverflow := "" }
  else .ok d

/-! ## Scroll reveal (C8) -/

/-- State of the scroll-reveal machinery: the set of elements the
`IntersectionObserver` still observes, the set of elements carrying the
`active` class, and the log of `classList.add('active')` calls issued
(one entry per call, newest first). -/
structure RevealState where
  observed : Finset String
  activeElems : Finset String
  addLog : List String
deriving DecidableEq

/-- Processing of one intersection entry by variant 1's observer callback:
an intersecting entry gets `classList.add('active')` and
`observer.unobserve(entry.target)`; a non-intersecting entry is skipped. -/
def processEntry (s : RevealState) (e : String × Bool) : RevealState :=
  if e.2 then
    { observed := s.observed.erase e.1,
      activeElems := insert e.1 s.activeElems,
      addLog := e.1 :: s.addLog }
  else s

/-- Variant 1's observer callback on one batch of entries. -/
def processBatch1 (s : RevealState) (entries : List (String × Bool)) : RevealState :=
  entries.foldl processEntry s

/-- Variant 2's observer callback: it first filters the batch to the
intersecting entries (`appearing`), then for each schedules the
staggered `classList.add('active')` and unobserves the target. -/
def processBatch2 (s : RevealState) (entries : List (String × Bool)) : RevealState :=
  (entries.filter (fun e => e.2)).foldl processEntry s

/-- A batch the observer can actually deliver for state `s`: every entry
targets a currently observed element, and no element occurs twice (the
observer reports state transitions, so a batch cannot contain two
intersecting records for one target). -/
def validBatch (s : RevealState) (b : List (String × Bool)) : Bool :=
  b.all (fun e => decide (e.1 ∈ s.observed)) && decide (b.map Prod.fst).Nodup

/-- A sequence of batches each deliverable in the state reached by its
predecessors (variant 1 processing). -/
def validRun1 : RevealState → List (List (String × Bool)) → Bool
  | _, [] => true
  | s, b :: bs => validBatch s b && validRun1 (processBatch1 s b) bs

/-- Same, with variant 2 processing. -/
def validRun2 : RevealState → List (List (String × Bool)) → Bool
  | _, [] => true
  | s, b :: bs => validBatch s b && validRun2 (processBatch2 s b) bs

/-- Run variant 1's callback over a sequence of batches. -/
def runBatches1 (s : RevealState) (bs : List (List (String × Bool))) : RevealState :=
  bs.foldl processBatch1 s

/-- Run variant 2's callback over a sequence of batches. -/
def runBatches2 (s : RevealState) (bs : List (List (String × Bool))) : RevealState :=
  bs.foldl processBatch2 s

/-! ## Mobile menu and scroll lock (C9, variant 2) -/

/-- State variant 2's menu handlers touch: the nav's `active` class, the
toggle's `open` class, its `aria-expanded` attribute, and
`document.body.style.overflow`. -/
structure MenuState where
  navActive : Bool
  toggleOpen : Bool
  ariaExpanded : String
  bodyOverflow : String
deriving DecidableEq, Repr

/-- Variant 2's `#menu-toggle` click handler:
`isOpen = nav.classList.toggle('active')`, mirror it on the toggle's
classes and `aria-expanded`, and set the body overflow to `'hidden'`
exactly when open. -/
def menuToggleClick2 (s : MenuState) : MenuState :=
  let isOpen := !s.navActive
  { navActive := isOpen, toggleOpen := isOpen,
    ariaExpanded := if isOpen then "true" else "false",
    bodyOverflow := if isOpen then "hidden" else "" }

/-- The menu auto-close inside variant 2's anchor-click handler, for a nav
and toggle that exist: when the nav is active, deactivate everything and
clear the scroll lock; otherwise do nothing. -/
def smoothScrollMenuClose2 (s : MenuState) : MenuState :=
  if s.navActive then
    { navActive := false, toggleOpen := false,
      ariaExpanded := "false", bodyOverflow := "" }
  else s

/-- The scroll lock mirrors the menu: the body overflow is `'hidden'`
exactly when the nav carries `active`, and is the cleared `''` otherwise. -/
def menuSynced (s : MenuState) : Prop :=
  (s.navActive = true → s.bodyOverflow = "hidden") ∧
  (s.navActive = false → s.bodyOverflow = "")

instance (s : MenuState) : Decidable (menuSynced s) := by
  unfold menuSynced; infer_instance

/-! ## Concrete inputs used by witnesses and counterexamples -/

/-- A contact form as the page ships it: idle button, three filled fields,
no overlay. -/
def initSend : FormModel :=
  { btn := { label := "Send Inquiry", disabled := false, opacity := "1" },
    fields := ["Jo", "jo@example.com", "strength"],
    overlays := 0, overlayActive := false }

/-- A 200-ok response. -/
def respOk : HttpResponse := { ok := true, errorMsg := none }

/-- A 422 rejection carrying a structured error message. -/
def respErr : HttpResponse := { ok := false, errorMsg := some "Email invalid" }

/-- A page whose contact section was removed but whose form and select
still exist. -/
def dom1NoContact : Dom1 :=
  { programValue := "", contactPresent := false, contactFormPresent := true,
    formHighlight := false, selectHighlight := false }

/-- A page whose contact section still exists but whose `.contact-form`
was removed. -/
def dom1NoForm : Dom1 :=
  { programValue := "", contactPresent := true, contactFormPresent := false,
    formHighlight := false, selectHighlight := false }

/-- A page with no `#main-header` but an open-able nav. -/
def dom2NoHeader : Dom2 :=
  { headerPresent := false, navPresent := true, navActive := false,
    toggleOpen := false, ariaExpanded := "false", bodyOverflow := "" }

/-- A selector list carrying the values `a` and `b`, none active. -/
def sel0 : SelState :=
  { programValue := "a", items := [("a", false), ("b", false)] }

/-- Counts one while `x` is still observed, zero once it is unobserved:
together with the number of `classList.add('active')` calls for `x` this
can never increase across observer callbacks. -/
def obsInd (x : String) (s : RevealState) : Nat :=
  if x ∈ s.observed then 1 else 0

/-- A fresh page with two observed reveal elements and no activation yet. -/
def reveal0 : RevealState :=
  { observed := {"hero", "cards"}, activeElems := ∅, addLog := [] }

/-- The hero intersects, then the cards leave before intersecting for good:
three deliverable batches. -/
def revealBatches : List (List (String × Bool)) :=
  [[("hero", true)], [("cards", false)], [("cards", true)]]

/-! ## Helper lemmas -/

theorem stateAt_three (init a b c : FormModel) (t1 t2 t : Nat) :
    stateAt init [(0, a), (t1, b), (t2, c)] t =
      if t2 ≤ t then c else if t1 ≤ t then b else a := by
  simp [stateAt, List.foldl]

theorem trace1_fail (init : FormModel) (ev : NetEvent)
    (h : (settle1 ev).2 ≠ Settled1.success) :
    trace1 init ev =
      [(0, submitState1 init),
       ((settle1 ev).1, resolveState1 init.btn.label (submitState1 init) (settle1 ev).2),
       ((settle1 ev).1 + revertMs,
        revertBtn init.btn.label
          (resolveState1 init.btn.label (submitState1 init) (settle1 ev).2))] := by
  unfold trace1; rw [if_neg h]

theorem trace1_ok (init : FormModel) (ev : NetEvent)
    (h : (settle1 ev).2 = Settled1.success) :
    trace1 init ev =
      [(0, submitState1 init),
       ((settle1 ev).1, resolveState1 init.btn.label (submitState1 init) (settle1 ev).2),
       ((settle1 ev).1 + overlayDelayMs,
        activateOverlay
          (resolveState1 init.btn.label (submitState1 init) (settle1 ev).2))] := by
  unfold trace1; rw [if_pos h]

theorem trace2_fail (init : FormModel) (ev : NetEvent)
    (h : (settle2 ev).2 ≠ Settled2.success) :
    trace2 init ev =
      [(0, submitState2 init),
       ((settle2 ev).1, resolveState2 (submitState2 init) (settle2 ev).2),
       ((settle2 ev).1 + revertMs,
        revertBtn init.btn.label (resolveState2 (submitState2 init) (settle2 ev).2))] := by
  unfold trace2; rw [if_neg h]

theorem trace2_ok (init : FormModel) (ev : NetEvent)
    (h : (settle2 ev).2 = Settled2.success) :
    trace2 init ev =
      [(0, submitState2 init),
       ((settle2 ev).1, resolveState2 (submitState2 init) (settle2 ev).2),
       ((settle2 ev).1 + overlayDelayMs,
        activateOverlay (resolveState2 (submitState2 init) (settle2 ev).2))] := by
  unfold trace2; rw [if_pos h]

theorem settle1_response_ok (t : Nat) (r : HttpResponse)
    (ht : t < timeoutMs) (hok : r.ok = true) :
    settle1 (NetEvent.response t r) = (t, Settled1.success) := by
  simp [settle1, settle1full, ht, hok]

theorem settle2_response_ok (t : Nat) (r : HttpResponse) (hok : r.ok = true) :
    settle2 (NetEvent.response t r) = (t, Settled2.success) := by
  simp [settle2, hok]

theorem resetFields_all_empty (s : FormModel) :
    (resetFields s).fields.all (fun f => f == "") = true := by
  simp [resetFields, List.all_map, Function.comp]

/-! ## C1 — success path of the submit handlers -/

/-- C1, as the claim states it, fails on the second variant: after an ok
response the variant-2 handler shows the overlay and resets the form but
never restores the button, which stays disabled with the `'Sending...'`
label instead of its original `'Send Inquiry'`. -/
theorem C1_counterexample :
    (stateAt initSend (trace2 initSend (NetEvent.response 100 respOk)) 20000).btn.disabled
      = true ∧
    (stateAt initSend (trace2 initSend (NetEvent.response 100 respOk)) 20000).btn.label
      = sendingLabel2 ∧
    initSend.btn.label = "Send Inquiry" ∧ sendingLabel2 ≠ "Send Inquiry" := by
  refine ⟨rfl, rfl, rfl, by decide⟩

/-- C1 (amended): for every submission whose fetch resolves with an ok
response, variant 1 displays the success overlay, clears all form fields
and restores the button to its idle label, enabled state and full opacity;
variant 2 displays the overlay and clears the fields but leaves the button
disabled with the sending label. -/
theorem C1_success_response (init : FormModel) (t : Nat) (r : HttpResponse)
    (hok : r.ok = true) (ht : t < timeoutMs) :
    ((stateAt init (trace1 init (NetEvent.response t r)) t).overlays = init.overlays + 1 ∧
     (stateAt init (trace1 init (NetEvent.response t r)) t).fields.all (fun f => f == "")
       = true ∧
     (stateAt init (trace1 init (NetEvent.response t r)) t).btn.label = init.btn.label ∧
     (stateAt init (trace1 init (NetEvent.response t r)) t).btn.disabled = false ∧
     (stateAt init (trace1 init (NetEvent.response t r)) t).btn.opacity = "1") ∧
    ((stateAt init (trace2 init (NetEvent.response t r)) t).overlays = init.overlays + 1 ∧
     (stateAt init (trace2 init (NetEvent.response t r)) t).fields.all (fun f => f == "")
       = true ∧
     (stateAt init (trace2 init (NetEvent.response t r)) t).btn.label = sendingLabel2 ∧
     (stateAt init (trace2 init (NetEvent.response t r)) t).btn.disabled = true) := by
  have hs1 := settle1_response_ok t r ht hok
  have hs2 := settle2_response_ok t r hok
  have hno : ¬ (t + overlayDelayMs ≤ t) := by simp [overlayDelayMs]
  constructor
  · rw [trace1_ok init _ (by rw [hs1])]
    rw [stateAt_three, if_neg (by rw [hs1]; exact hno), if_pos (by rw [hs1])]
    rw [hs1]
    refine ⟨rfl, resetFields_all_empty _, rfl, rfl, rfl⟩
  · rw [trace2_ok init _ (by rw [hs2])]
    rw [stateAt_three, if_neg (by rw [hs2]; exact hno), if_pos (by rw [hs2])]
    rw [hs2]
    exact ⟨rfl, resetFields_all_empty _, rfl, rfl⟩

/-- C1 witness: the amended success behaviour at a concrete ok response
arriving after 100 ms on the shipped form. -/
theorem C1_success_response_witness :
    ((stateAt initSend (trace1 initSend (NetEvent.response 100 respOk)) 100).overlays
       = initSend.overlays + 1 ∧
     (stateAt initSend (trace1 initSend (NetEvent.response 100 respOk)) 100).fields.all
       (fun f => f == "") = true ∧
     (stateAt initSend (trace1 initSend (NetEvent.response 100 respOk)) 100).btn.label
       = initSend.btn.label ∧
     (stateAt initSend (trace1 initSend (NetEvent.response 100 respOk)) 100).btn.disabled
       = false ∧
     (stateAt initSend (trace1 initSend (NetEvent.response 100 respOk)) 100).btn.opacity
       = "1") ∧
    ((stateAt initSend (trace2 initSend (NetEvent.response 100 respOk)) 100).overlays
       = initSend.overlays + 1 ∧
     (stateAt initSend (trace2 initSend (NetEvent.response 100 respOk)) 100).fields.all
       (fun f => f == "") = true ∧
     (stateAt initSend (trace2 initSend (NetEvent.response 100 respOk)) 100).btn.label
       = sendingLabel2 ∧
     (stateAt initSend (trace2 initSend (NetEvent.response 100 respOk)) 100).btn.disabled
       = true) :=
  C1_success_response initSend 100 respOk (by decide) (by decide)

/-! ## C2 — failure path: error label, then revert to idle -/

/-- C2: on a non-ok response, a network failure or (in variant 1) a
timeout, the handler shows an error label on the still-disabled button
during the whole 3-second window after settlement, and once the window
elapses the label equals the original idle label again and the button is
re-enabled — in both variants. -/
theorem C2_failure_error_then_revert (init : FormModel) (ev : NetEvent) (t u : Nat) :
    ((settle1 ev).2 ≠ Settled1.success →
      ((settle1 ev).1 ≤ t → t < (settle1 ev).1 + revertMs →
        (stateAt init (trace1 init ev) t).btn.disabled = true ∧
        ((stateAt init (trace1 init ev) t).btn.label = timeoutLabel ∨
         (stateAt init (trace1 init ev) t).btn.label = errorLabel)) ∧
      ((settle1 ev).1 + revertMs ≤ u →
        (stateAt init (trace1 init ev) u).btn.label = init.btn.label ∧
        (stateAt init (trace1 init ev) u).btn.disabled = false)) ∧
    ((settle2 ev).2 = Settled2.failure →
      ((settle2 ev).1 ≤ t → t < (settle2 ev).1 + revertMs →
        (stateAt init (trace2 init ev) t).btn.disabled = true ∧
        (stateAt init (trace2 init ev) t).btn.label = errorLabel) ∧
      ((settle2 ev).1 + revertMs ≤ u →
        (stateAt init (trace2 init ev) u).btn.label = init.btn.label ∧
        (stateAt init (trace2 init ev) u).btn.disabled = false)) := by
  constructor
  · intro h1
    rw [trace1_fail init ev h1]
    constructor
    · intro ht1 ht2
      rw [stateAt_three, if_neg (by omega), if_pos ht1]
      cases hk : (settle1 ev).2 with
      | success => exact absurd hk h1
      | httpErr msg => simp [hk, resolveState1, submitState1]
      | netErr => simp [hk, resolveState1, submitState1]
      | aborted => simp [hk, resolveState1, submitState1]
    · intro hu
      rw [stateAt_three, if_pos hu]
      simp [revertBtn]
  · intro h2
    have h2ne : (settle2 ev).2 ≠ Settled2.success := by rw [h2]; intro hx; cases hx
    rw [trace2_fail init ev h2ne]
    constructor
    · intro ht1 ht2
      rw [stateAt_three, if_neg (by omega), if_pos ht1]
      rw [h2]
      simp [resolveState2, submitState2]
    · intro hu
      rw [stateAt_three, if_pos hu]
      simp [revertBtn]

/-- C2 witness: the 422 rejection of the spec's example scenario, observed
during the error window (at 1 second) and after the revert (at 5 seconds). -/
theorem C2_failure_error_then_revert_witness :
    ((settle1 (NetEvent.response 100 respErr)).2 ≠ Settled1.success →
      ((settle1 (NetEvent.response 100 respErr)).1 ≤ 1000 →
          1000 < (settle1 (NetEvent.response 100 respErr)).1 + revertMs →
        (stateAt initSend (trace1 initSend (NetEvent.response 100 respErr)) 1000).btn.disabled
          = true ∧
        ((stateAt initSend (trace1 initSend (NetEvent.response 100 respErr)) 1000).btn.label
            = timeoutLabel ∨
         (stateAt initSend (trace1 initSend (NetEvent.response 100 respErr)) 1000).btn.label
            = errorLabel)) ∧
      ((settle1 (NetEvent.response 100 respErr)).1 + revertMs ≤ 5000 →
        (stateAt initSend (trace1 initSend (NetEvent.response 100 respErr)) 5000).btn.label
          = initSend.btn.label ∧
        (stateAt initSend (trace1 initSend (NetEvent.response 100 respErr)) 5000).btn.disabled
          = false)) ∧
    ((settle2 (NetEvent.response 100 respErr)).2 = Settled2.failure →
      ((settle2 (NetEvent.response 100 respErr)).1 ≤ 1000 →
          1000 < (settle2 (NetEvent.response 100 respErr)).1 + revertMs →
        (stateAt initSend (trace2 initSend (NetEvent.response 100 respErr)) 1000).btn.disabled
          = true ∧
        (stateAt initSend (trace2 initSend (NetEvent.response 100 respErr)) 1000).btn.label
          = errorLabel) ∧
      ((settle2 (NetEvent.response 100 respErr)).1 + revertMs ≤ 5000 →
        (stateAt initSend (trace2 initSend (NetEvent.response 100 respErr)) 5000).btn.label
          = initSend.btn.label ∧
        (stateAt initSend (trace2 initSend (NetEvent.response 100 respErr)) 5000).btn.disabled
          = false)) :=
  C2_failure_error_then_revert initSend (NetEvent.response 100 respErr) 1000 5000

/-! ## C3 — the button is disabled while a submission is in flight -/

/-- C3, as the claim states it, fails on the second variant: after a
successful outcome (response at 50 ms) the button is not re-enabled, not
immediately and not ever — it is still disabled at the settlement instant,
3 seconds later, and 100 seconds later. -/
theorem C3_counterexample :
    (stateAt initSend (trace2 initSend (NetEvent.response 50 respOk)) 50).btn.disabled
      = true ∧
    (stateAt initSend (trace2 initSend (NetEvent.response 50 respOk)) 3050).btn.disabled
      = true ∧
    (stateAt initSend (trace2 initSend (NetEvent.response 50 respOk)) 100050).btn.disabled
      = true := by
  refine ⟨rfl, rfl, rfl⟩

/-- C3 (amended): in both variants the submit button is disabled for the
entire interval between the submit event and the outcome, so no second
submission can start while one is in flight; afterwards variant 1
re-enables it immediately on success and 3 seconds after a failure, and
variant 2 re-enables it 3 seconds after a failure but leaves it disabled
forever after a success. -/
theorem C3_button_disabled_inflight (init : FormModel) (ev : NetEvent) (t u v : Nat) :
    (t < (settle1 ev).1 → (stateAt init (trace1 init ev) t).btn.disabled = true) ∧
    (t < (settle2 ev).1 → (stateAt init (trace2 init ev) t).btn.disabled = true) ∧
    ((settle1 ev).2 = Settled1.success → (settle1 ev).1 ≤ u →
      (stateAt init (trace1 init ev) u).btn.disabled = false) ∧
    ((settle1 ev).2 ≠ Settled1.success → (settle1 ev).1 + revertMs ≤ u →
      (stateAt init (trace1 init ev) u).btn.disabled = false) ∧
    ((settle2 ev).2 = Settled2.failure → (settle2 ev).1 + revertMs ≤ u →
      (stateAt init (trace2 init ev) u).btn.disabled = false) ∧
    ((settle2 ev).2 = Settled2.success → (settle2 ev).1 ≤ v →
      (stateAt init (trace2 init ev) v).btn.disabled = true) := by
  refine ⟨?_, ?_, ?_, ?_, ?_, ?_⟩
  · intro ht
    by_cases hk : (settle1 ev).2 = Settled1.success
    · rw [trace1_ok init ev hk, stateAt_three, if_neg (by simp [overlayDelayMs]; omega),
        if_neg (by omega)]
      simp [submitState1]
    · rw [trace1_fail init ev hk, stateAt_three, if_neg (by simp [revertMs]; omega),
        if_neg (by omega)]
      simp [submitState1]
  · intro ht
    by_cases hk : (settle2 ev).2 = Settled2.success
    · rw [trace2_ok init ev hk, stateAt_three, if_neg (by simp [overlayDelayMs]; omega),
        if_neg (by omega)]
      simp [submitState2]
    · rw [trace2_fail init ev hk, stateAt_three, if_neg (by simp [revertMs]; omega),
        if_neg (by omega)]
      simp [submitState2]
  · intro hk hu
    rw [trace1_ok init ev hk, stateAt_three, hk]
    by_cases h2 : (settle1 ev).1 + overlayDelayMs ≤ u
    · rw [if_pos h2]; simp [activateOverlay, resolveState1]
    · rw [if_neg h2, if_pos hu]; simp [resolveState1]
  · intro hk hu
    rw [trace1_fail init ev hk, stateAt_three, if_pos hu]
    simp [revertBtn]
  · intro hk hu
    have hne : (settle2 ev).2 ≠ Settled2.success := by rw [hk]; intro hx; cases hx
    rw [trace2_fail init ev hne, stateAt_three, if_pos hu]
    simp [revertBtn]
  · intro hk hv
    rw [trace2_ok init ev hk, stateAt_three, hk]
    by_cases h2 : (settle2 ev).1 + overlayDelayMs ≤ v
    · rw [if_pos h2]
      simp [activateOverlay, resolveState2, resetFields, appendOverlay, submitState2]
    · rw [if_neg h2, if_pos hv]
      simp [resolveState2, resetFields, appendOverlay, submitState2]

/-- C3 witness: a network failure at 500 ms in both variants, sampled
during flight (at 400 ms) and after the revert window (at 4000 ms). -/
theorem C3_button_disabled_inflight_witness :
    (400 < (settle1 (NetEvent.netFail 500)).1 →
      (stateAt initSend (trace1 initSend (NetEvent.netFail 500)) 400).btn.disabled = true) ∧
    (400 < (settle2 (NetEvent.netFail 500)).1 →
      (stateAt initSend (trace2 initSend (NetEvent.netFail 500)) 400).btn.disabled = true) ∧
    ((settle1 (NetEvent.netFail 500)).2 = Settled1.success →
        (settle1 (NetEvent.netFail 500)).1 ≤ 4000 →
      (stateAt initSend (trace1 initSend (NetEvent.netFail 500)) 4000).btn.disabled = false) ∧
    ((settle1 (NetEvent.netFail 500)).2 ≠ Settled1.success →
        (settle1 (NetEvent.netFail 500)).1 + revertMs ≤ 4000 →
      (stateAt initSend (trace1 initSend (NetEvent.netFail 500)) 4000).btn.disabled = false) ∧
    ((settle2 (NetEvent.netFail 500)).2 = Settled2.failure →
        (settle2 (NetEvent.netFail 500)).1 + revertMs ≤ 4000 →
      (stateAt initSend (trace2 initSend (NetEvent.netFail 500)) 4000).btn.disabled = false) ∧
    ((settle2 (NetEvent.netFail 500)).2 = Settled2.success →
        (settle2 (NetEvent.netFail 500)).1 ≤ 7000 →
      (stateAt initSend (trace2 initSend (NetEvent.netFail 500)) 7000).btn.disabled = true) :=
  C3_button_disabled_inflight initSend (NetEvent.netFail 500) 400 4000 7000

/-! ## C4 — 10-second timeout aborts and shows the timeout label -/

/-- C4: in variant 1, when nothing settles the fetch within the 10-second
bound the request is aborted at the bound, and throughout the error window
the button label is the timeout-specific message, which differs from the
generic error message. -/
theorem C4_timeout_abort (init : FormModel) (ev : NetEvent) (t : Nat)
    (h : timeoutMs ≤ ev.arrival) (h2 : timeoutMs ≤ t) (h3 : t < timeoutMs + revertMs) :
    settle1 ev = (timeoutMs, Settled1.aborted) ∧
    (stateAt init (trace1 init ev) t).btn.label = timeoutLabel ∧
    timeoutLabel ≠ errorLabel := by
  have hs : settle1 ev = (timeoutMs, Settled1.aborted) := by
    cases ev with
    | response tr r =>
        simp only [NetEvent.arrival] at h
        simp [settle1, settle1full, Nat.not_lt.mpr h]
    | netFail tn =>
        simp only [NetEvent.arrival] at h
        simp [settle1, settle1full, Nat.not_lt.mpr h]
  refine ⟨hs, ?_, by decide⟩
  rw [trace1_fail init ev (by rw [hs]; intro hx; cases hx)]
  rw [stateAt_three, if_neg (by rw [hs]; simp only; omega), if_pos (by rw [hs]; exact h2)]
  rw [hs]
  simp [resolveState1]

/-- C4 witness: a response that would only arrive at 15 s; sampled at 11 s
the button reads the timeout label. -/
theorem C4_timeout_abort_witness :
    settle1 (NetEvent.response 15000 respOk) = (timeoutMs, Settled1.aborted) ∧
    (stateAt initSend (trace1 initSend (NetEvent.response 15000 respOk)) 11000).btn.label
      = timeoutLabel ∧
    timeoutLabel ≠ errorLabel :=
  C4_timeout_abort initSend (NetEvent.response 15000 respOk) 11000
    (by decide) (by decide) (by decide)

/-! ## C7 — success overlay lifecycle -/

/-- C7: after one successful submission on a form with no overlay yet, all
fields are cleared and exactly one success overlay is present in the form;
the overlay's `active` class is absent at insertion and applied only after
the (positive) insertion delay; triggering the overlay's close action
removes it, leaving no overlay — in both variants. -/
theorem C7_overlay_lifecycle (init : FormModel) (t u : Nat) (r : HttpResponse)
    (hok : r.ok = true) (h0 : init.overlays = 0) (hu : t + overlayDelayMs ≤ u) :
    (t < timeoutMs →
      (stateAt init (trace1 init (NetEvent.response t r)) t).overlays = 1 ∧
      (stateAt init (trace1 init (NetEvent.response t r)) t).fields.all (fun f => f == "")
        = true ∧
      (stateAt init (trace1 init (NetEvent.response t r)) t).overlayActive = false ∧
      (stateAt init (trace1 init (NetEvent.response t r)) u).overlayActive = true ∧
      (closeOverlay (stateAt init (trace1 init (NetEvent.response t r)) u)).overlays = 0) ∧
    ((stateAt init (trace2 init (NetEvent.response t r)) t).overlays = 1 ∧
     (stateAt init (trace2 init (NetEvent.response t r)) t).fields.all (fun f => f == "")
       = true ∧
     (stateAt init (trace2 init (NetEvent.response t r)) t).overlayActive = false ∧
     (stateAt init (trace2 init (NetEvent.response t r)) u).overlayActive = true ∧
     (closeOverlay (stateAt init (trace2 init (NetEvent.response t r)) u)).overlays = 0) ∧
    0 < overlayDelayMs := by
  have hs2 := settle2_response_ok t r hok
  have hno : ¬ (t + overlayDelayMs ≤ t) := by simp [overlayDelayMs]
  refine ⟨?_, ?_, by decide⟩
  · intro ht
    have hs1 := settle1_response_ok t r ht hok
    rw [trace1_ok init _ (by rw [hs1])]
    rw [stateAt_three, stateAt_three, if_neg (by rw [hs1]; exact hno),
      if_pos (by rw [hs1]), if_pos (by rw [hs1]; exact hu)]
    rw [hs1]
    refine ⟨?_, resetFields_all_empty _, ?_, ?_, ?_⟩ <;>
      simp [resolveState1, resetFields, appendOverlay, activateOverlay, closeOverlay,
        submitState1, h0]
  · rw [trace2_ok init _ (by rw [hs2])]
    rw [stateAt_three, stateAt_three, if_neg (by rw [hs2]; exact hno),
      if_pos (by rw [hs2]), if_pos (by rw [hs2]; exact hu)]
    rw [hs2]
    refine ⟨?_, resetFields_all_empty _, ?_, ?_, ?_⟩ <;>
      simp [resolveState2, resetFields, appendOverlay, activateOverlay, closeOverlay,
        submitState2, h0]

/-- C7 witness: the overlay lifecycle for an ok response at 200 ms,
sampled at insertion and at 300 ms (past the 10 ms activation delay). -/
theorem C7_overlay_lifecycle_witness :
    (200 < timeoutMs →
      (stateAt initSend (trace1 initSend (NetEvent.response 200 respOk)) 200).overlays = 1 ∧
      (stateAt initSend (trace1 initSend (NetEvent.response 200 respOk)) 200).fields.all
        (fun f => f == "") = true ∧
      (stateAt initSend (trace1 initSend (NetEvent.response 200 respOk)) 200).overlayActive
        = false ∧
      (stateAt initSend (trace1 initSend (NetEvent.response 200 respOk)) 300).overlayActive
        = true ∧
      (closeOverlay
        (stateAt initSend (trace1 initSend (NetEvent.response 200 respOk)) 300)).overlays
        = 0) ∧
    ((stateAt initSend (trace2 initSend (NetEvent.response 200 respOk)) 200).overlays = 1 ∧
     (stateAt initSend (trace2 initSend (NetEvent.response 200 respOk)) 200).fields.all
       (fun f => f == "") = true ∧
     (stateAt initSend (trace2 initSend (NetEvent.response 200 respOk)) 200).overlayActive
       = false ∧
     (stateAt initSend (trace2 initSend (NetEvent.response 200 respOk)) 300).overlayActive
       = true ∧
     (closeOverlay
       (stateAt initSend (trace2 initSend (NetEvent.response 200 respOk)) 300)).overlays
       = 0) ∧
    0 < overlayDelayMs :=
  C7_overlay_lifecycle initSend 200 300 respOk (by decide) (by decide) (by decide)

/-! ## C10 — the abort timer is cancelled on every settlement path -/

/-- C10: in variant 1, `clearTimeout` runs on every settlement path of the
fetch (response branch and catch branch alike); the abort outcome occurs
exactly when the fetch had not settled before the 10-second deadline, and
whenever the fetch settles earlier the timer is cleared strictly before
its deadline, so an abort can never fire after the attempt has resolved. -/
theorem C10_abort_timer_cleared (ev : NetEvent) :
    (settle1full ev).2.2 = true ∧
    ((settle1 ev).2 = Settled1.aborted ↔ timeoutMs ≤ ev.arrival) ∧
    (ev.arrival < timeoutMs →
      (settle1 ev).1 = ev.arrival ∧ (settle1 ev).1 < timeoutMs) := by
  cases ev with
  | response t r =>
      by_cases ht : t < timeoutMs
      · by_cases hok : r.ok = true <;>
          simp [settle1, settle1full, NetEvent.arrival, ht, hok, Nat.not_le.mpr ht]
      · simp [settle1, settle1full, NetEvent.arrival, ht, Nat.not_lt.mp ht]
  | netFail t =>
      by_cases ht : t < timeoutMs
      · simp [settle1, settle1full, NetEvent.arrival, ht, Nat.not_le.mpr ht]
      · simp [settle1, settle1full, NetEvent.arrival, ht, Nat.not_lt.mp ht]

/-! ## C5 — initializers no-op on absent elements -/

/-- C5, as the claim states it, fails at event time: with `#contact`
absent, variant 1's card-click handler throws a `TypeError` instead of
no-opping; so does the same handler with `.contact-form` absent (the
contact section still present); and with `#main-header` absent, variant
2's anchor-click handler on an existing target throws a `TypeError`. -/
theorem C5_counterexample :
    cardClick1 (some "strength") dom1NoContact
      = Except.error "TypeError: contactSection is null" ∧
    cardClick1 (some "strength") dom1NoForm
      = Except.error "TypeError: form is null" ∧
    anchorClick2 "#contact" true dom2NoHeader
      = Except.error "TypeError: header is null" := by
  refine ⟨rfl, rfl, rfl⟩

/-- C5 (amended): every initializer no-ops silently when an element its
setup-time guard checks is absent (no cards or no `#program` select, no
contact form, no header, no menu toggle or nav), and the installed
handlers no-op on a missing `data-value` or a missing anchor target; but
a card click with the contact section absent, a card click with the
contact form absent (variant 1), and an anchor click on an existing
target with the main header absent (variant 2), throw a `TypeError`
instead of no-opping. -/
theorem C5_missing_elements (cards : List (Option String)) (sel nav mt : Bool)
    (d1 e1 : Dom1) (d2 : Dom2) (tid : String) (v : String)
    (hv : v ≠ "") (hc : d1.contactPresent = false)
    (he1 : e1.contactPresent = true) (he2 : e1.contactFormPresent = false)
    (hh : d2.headerPresent = false) (ht1 : tid ≠ "#") (ht2 : tid ≠ "") :
    initProtocolSelection1attaches [] sel = false ∧
    initProtocolSelection1attaches cards false = false ∧
    initProtocolSelection2attaches false = false ∧
    initContactFormAttaches false = false ∧
    initStickyHeaderAttaches false = false ∧
    initMobileMenuAttaches false nav = false ∧
    initMobileMenuAttaches mt false = false ∧
    cardClick1 none d1 = Except.ok d1 ∧
    anchorClick2 tid false d2 = Except.ok d2 ∧
    cardClick1 (some v) d1 = Except.error "TypeError: contactSection is null" ∧
    cardClick1 (some v) e1 = Except.error "TypeError: form is null" ∧
    anchorClick2 tid true d2 = Except.error "TypeError: header is null" := by
  refine ⟨rfl, ?_, rfl, rfl, rfl, rfl, ?_, rfl, ?_, ?_, ?_, ?_⟩
  · simp [initProtocolSelection1attaches]
  · simp [initMobileMenuAttaches]
  · by_cases h : (tid == "#" || tid == "") = true <;> simp [anchorClick2, h]
  · simp [cardClick1, hv, hc]
  · simp [cardClick1, hv, he1, he2]
  · simp [anchorClick2, ht1, ht2, hh]

/-- C5 witness: the amended behaviour on a concrete page with `#contact`
and `#main-header` absent, for a card carrying `"strength"` and an anchor
to `"#pricing"`. -/
theorem C5_missing_elements_witness :
    initProtocolSelection1attaches [] true = false ∧
    initProtocolSelection1attaches [some "strength"] false = false ∧
    initProtocolSelection2attaches false = false ∧
    initContactFormAttaches false = false ∧
    initStickyHeaderAttaches false = false ∧
    initMobileMenuAttaches false true = false ∧
    initMobileMenuAttaches true false = false ∧
    cardClick1 none dom1NoContact = Except.ok dom1NoContact ∧
    anchorClick2 "#pricing" false dom2NoHeader = Except.ok dom2NoHeader ∧
    cardClick1 (some "strength") dom1NoContact
      = Except.error "TypeError: contactSection is null" ∧
    cardClick1 (some "strength") dom1NoForm
      = Except.error "TypeError: form is null" ∧
    anchorClick2 "#pricing" true dom2NoHeader
      = Except.error "TypeError: header is null" :=
  C5_missing_elements [some "strength"] true true true dom1NoContact dom1NoForm
    dom2NoHeader "#pricing" "strength" (by decide) (by decide) (by decide) (by decide)
    (by decide) (by decide) (by decide)

/-! ## C6 — selector synchronization -/

/-- C6, as the claim states it, fails when the activated value occurs in
no list selector: a card carrying `"elite"` sets the field to `"elite"`
but marks zero list selectors active, not exactly one. -/
theorem C6_counterexample :
    (selectorClick (some "elite") sel0).programValue = "elite" ∧
    ((selectorClick (some "elite") sel0).items.filter (fun it => it.2)).length = 0 := by
  refine ⟨rfl, rfl⟩

theorem countActive_update (l : List (String × Bool)) (v : String) :
    ((l.map (fun it => (it.1, it.1 == v))).filter (fun it => it.2)).length
      = (l.filter (fun it => it.1 == v)).length := by
  induction l with
  | nil => rfl
  | cons a l ih =>
      by_cases h : (a.1 == v) = true <;>
        simp [List.map_cons, List.filter_cons, h, ih]

theorem allActive_match (l : List (String × Bool)) (v : String) :
    (l.map (fun it => (it.1, it.1 == v))).all (fun it => !it.2 || (it.1 == v)) = true := by
  induction l with
  | nil => rfl
  | cons a l ih =>
      cases h : a.1 == v <;> simp_all

/-- C6 (amended): activating a card or list selector carrying a non-empty
value `v` sets the form field to `v` and marks active exactly those list
selectors whose `data-value` equals `v` — as many of them as carry `v`,
so exactly one precisely when `v` occurs in exactly one selector — and
every active selector then matches the field's value; an activation with
a missing or empty `data-value` changes nothing (in variant 1's card
handler too). -/
theorem C6_selection_sync (s : SelState) (p v : String) (hv : v ≠ "")
    (h1 : (s.items.filter (fun it => it.1 == v)).length = 1) :
    (selectorClick (some v) s).programValue = v ∧
    ((selectorClick (some v) s).items.filter (fun it => it.2)).length
      = (s.items.filter (fun it => it.1 == v)).length ∧
    ((selectorClick (some v) s).items.filter (fun it => it.2)).length = 1 ∧
    (selectorClick (some v) s).items.all
      (fun it => !it.2 || (it.1 == (selectorClick (some v) s).programValue)) = true ∧
    selectorClick none s = s ∧
    selectorClick (some "") s = s ∧
    cardClick1Value none p = p ∧
    cardClick1Value (some "") p = p := by
  have hsel : selectorClick (some v) s = updateProtocolSelection v s := by
    simp [selectorClick, hv]
  rw [hsel]
  refine ⟨rfl, ?_, ?_, ?_, rfl, ?_, rfl, ?_⟩
  · exact countActive_update s.items v
  · rw [show (updateProtocolSelection v s).items.filter (fun it => it.2)
        = ((s.items.map (fun it => (it.1, it.1 == v))).filter (fun it => it.2)) from rfl,
      countActive_update s.items v]
    exact h1
  · exact allActive_match s.items v
  · simp [selectorClick]
  · simp [cardClick1Value]

/-- C6 witness: activating `"b"` on a selector list carrying `a` and `b`
sets the field to `b` and exactly one selector active. -/
theorem C6_selection_sync_witness :
    (selectorClick (some "b") sel0).programValue = "b" ∧
    ((selectorClick (some "b") sel0).items.filter (fun it => it.2)).length
      = (sel0.items.filter (fun it => it.1 == "b")).length ∧
    ((selectorClick (some "b") sel0).items.filter (fun it => it.2)).length = 1 ∧
    (selectorClick (some "b") sel0).items.all
      (fun it => !it.2 || (it.1 == (selectorClick (some "b") sel0).programValue)) = true ∧
    selectorClick none sel0 = sel0 ∧
    selectorClick (some "") sel0 = sel0 ∧
    cardClick1Value none "a" = "a" ∧
    cardClick1Value (some "") "a" = "a" :=
  C6_selection_sync sel0 "a" "b" (by decide) (by decide)

/-! ## C9 — scroll lock stays synchronized with the mobile menu -/

/-- C9: in variant 2, after any menu-toggle click the body overflow is
`'hidden'` exactly when the nav is active; the anchor handler's menu
auto-close preserves that synchronization, clears the lock whenever it
closes the menu, and never leaves the body locked with the menu closed. -/
theorem C9_scroll_lock_menu_sync (s : MenuState) (h : menuSynced s) :
    menuSynced (menuToggleClick2 s) ∧
    menuSynced (smoothScrollMenuClose2 s) ∧
    (s.navActive = true → (smoothScrollMenuClose2 s).navActive = false ∧
      (smoothScrollMenuClose2 s).bodyOverflow = "") ∧
    ((smoothScrollMenuClose2 s).navActive = false →
      (smoothScrollMenuClose2 s).bodyOverflow = "") := by
  obtain ⟨hA, hB⟩ := h
  refine ⟨?_, ?_, ?_, ?_⟩
  · cases hn : s.navActive <;> simp [menuToggleClick2, menuSynced, hn]
  · cases hn : s.navActive <;>
      simp [smoothScrollMenuClose2, menuSynced, hn, hA, hB]
  · intro hn; simp [smoothScrollMenuClose2, hn]
  · intro hn
    cases hn2 : s.navActive with
    | false => simp [smoothScrollMenuClose2, hn2, hB hn2]
    | true => simp [smoothScrollMenuClose2, hn2]

/-- C9 witness: the synchronization facts on a page whose menu is open
and scroll-locked. -/
theorem C9_scroll_lock_menu_sync_witness :
    menuSynced (menuToggleClick2
      { navActive := true, toggleOpen := true,
        ariaExpanded := "true", bodyOverflow := "hidden" }) ∧
    menuSynced (smoothScrollMenuClose2
      { navActive := true, toggleOpen := true,
        ariaExpanded := "true", bodyOverflow := "hidden" }) ∧
    (({ navActive := true, toggleOpen := true, ariaExpanded := "true",
          bodyOverflow := "hidden" } : MenuState).navActive = true →
      (smoothScrollMenuClose2
        { navActive := true, toggleOpen := true,
          ariaExpanded := "true", bodyOverflow := "hidden" }).navActive = false ∧
      (smoothScrollMenuClose2
        { navActive := true, toggleOpen := true,
          ariaExpanded := "true", bodyOverflow := "hidden" }).bodyOverflow = "") ∧
    ((smoothScrollMenuClose2
        { navActive := true, toggleOpen := true,
          ariaExpanded := "true", bodyOverflow := "hidden" }).navActive = false →
      (smoothScrollMenuClose2
        { navActive := true, toggleOpen := true,
          ariaExpanded := "true", bodyOverflow := "hidden" }).bodyOverflow = "") :=
  C9_scroll_lock_menu_sync
    { navActive := true, toggleOpen := true,
      ariaExpanded := "true", bodyOverflow := "hidden" }
    (by constructor <;> simp)

/-! ## C8 — an element is revealed at most once -/

theorem processEntry_measure (s : RevealState) (e : String × Bool) (x : String)
    (h : e.1 = x → e.2 = true → x ∈ s.observed) :
    (processEntry s e).addLog.count x + obsInd x (processEntry s e)
      ≤ s.addLog.count x + obsInd x s := by
  by_cases hi : e.2 = true
  · by_cases hx : e.1 = x
    · subst hx
      have hobs : e.1 ∈ s.observed := h rfl hi
      simp [processEntry, obsInd, hi, hobs, Finset.not_mem_erase]
    · have hxe : x ≠ e.1 := fun hq => hx hq.symm
      simp [processEntry, obsInd, hi, List.count_cons, hxe, Finset.mem_erase]
  · simp [processEntry, hi]

theorem processBatch1_cons (s : RevealState) (e : String × Bool)
    (rest : List (String × Bool)) :
    processBatch1 s (e :: rest) = processBatch1 (processEntry s e) rest := rfl

theorem processBatch1_measure (b : List (String × Bool)) (s : RevealState) (x : String)
    (hmem : ∀ e ∈ b, e.1 ∈ s.observed) (hnd : (b.map Prod.fst).Nodup) :
    (processBatch1 s b).addLog.count x + obsInd x (processBatch1 s b)
      ≤ s.addLog.count x + obsInd x s := by
  induction b generalizing s with
  | nil => exact le_refl _
  | cons e rest ih =>
      have hhead : e.1 ∉ rest.map Prod.fst ∧ (rest.map Prod.fst).Nodup := by
        simpa using hnd
      have h1 := processEntry_measure s e x
        (fun hx _ => hx ▸ hmem e (List.mem_cons_self e rest))
      have hmem2 : ∀ e2 ∈ rest, e2.1 ∈ (processEntry s e).observed := by
        intro e2 he2
        have h0 : e2.1 ∈ s.observed := hmem e2 (List.mem_cons_of_mem _ he2)
        have hne : e2.1 ≠ e.1 := by
          intro hq
          exact hhead.1 (hq ▸ List.mem_map_of_mem Prod.fst he2)
        by_cases hi : e.2 = true
        · simp [processEntry, hi, Finset.mem_erase, hne, h0]
        · simp [processEntry, hi, h0]
      rw [processBatch1_cons]
      exact le_trans (ih (processEntry s e) hmem2 hhead.2) h1

theorem validBatch_spec (s : RevealState) (b : List (String × Bool))
    (h : validBatch s b = true) :
    (∀ e ∈ b, e.1 ∈ s.observed) ∧ (b.map Prod.fst).Nodup := by
  rw [validBatch, Bool.and_eq_true] at h
  refine ⟨?_, of_decide_eq_true h.2⟩
  intro e he
  have := List.all_eq_true.mp h.1 e he
  exact of_decide_eq_true this

theorem runBatches1_measure (bs : List (List (String × Bool))) (s : RevealState)
    (x : String) (h : validRun1 s bs = true) :
    (runBatches1 s bs).addLog.count x + obsInd x (runBatches1 s bs)
      ≤ s.addLog.count x + obsInd x s := by
  induction bs generalizing s with
  | nil => exact le_refl _
  | cons b bs ih =>
      rw [validRun1, Bool.and_eq_true] at h
      obtain ⟨hmem, hnd⟩ := validBatch_spec s b h.1
      exact le_trans (ih (processBatch1 s b) h.2) (processBatch1_measure b s x hmem hnd)

theorem processBatch2_as_filter (s : RevealState) (b : List (String × Bool)) :
    processBatch2 s b = processBatch1 s (b.filter (fun e => e.2)) := rfl

theorem processBatch2_measure (b : List (String × Bool)) (s : RevealState) (x : String)
    (hmem : ∀ e ∈ b, e.1 ∈ s.observed) (hnd : (b.map Prod.fst).Nodup) :
    (processBatch2 s b).addLog.count x + obsInd x (processBatch2 s b)
      ≤ s.addLog.count x + obsInd x s := by
  rw [processBatch2_as_filter]
  refine processBatch1_measure _ s x ?_ ?_
  · intro e he
    exact hmem e (List.mem_of_mem_filter he)
  · exact List.Nodup.sublist (List.Sublist.map Prod.fst (List.filter_sublist b)) hnd

theorem runBatches2_measure (bs : List (List (String × Bool))) (s : RevealState)
    (x : String) (h : validRun2 s bs = true) :
    (runBatches2 s bs).addLog.count x + obsInd x (runBatches2 s bs)
      ≤ s.addLog.count x + obsInd x s := by
  induction bs generalizing s with
  | nil => exact le_refl _
  | cons b bs ih =>
      rw [validRun2, Bool.and_eq_true] at h
      obtain ⟨hmem, hnd⟩ := validBatch_spec s b h.1
      exact le_trans (ih (processBatch2 s b) h.2) (processBatch2_measure b s x hmem hnd)

/-- C8: for every element, across any sequence of intersection-event
batches the observer can actually deliver (each entry targets a still
observed element, no element twice in one batch), `classList.add('active')`
is issued at most once for that element — in both variants: once an
element is activated it is unobserved, so later re-entries into the
viewport produce no further activation. -/
theorem C8_reveal_at_most_once (s : RevealState) (bs : List (List (String × Bool)))
    (x : String) (h0 : s.addLog.count x = 0) :
    (validRun1 s bs = true → (runBatches1 s bs).addLog.count x ≤ 1) ∧
    (validRun2 s bs = true → (runBatches2 s bs).addLog.count x ≤ 1) := by
  have hobs : obsInd x s ≤ 1 := by unfold obsInd; split <;> omega
  constructor
  · intro h
    have hm := runBatches1_measure bs s x h
    omega
  · intro h
    have hm := runBatches2_measure bs s x h
    omega

/-- C8 witness: on the concrete three-batch run the hero element is
activated at most once under both variants. -/
theorem C8_reveal_at_most_once_witness :
    (validRun1 reveal0 revealBatches = true →
      (runBatches1 reveal0 revealBatches).addLog.count "hero" ≤ 1) ∧
    (validRun2 reveal0 revealBatches = true →
      (runBatches2 reveal0 revealBatches).addLog.count "hero" ≤ 1) :=
  C8_reveal_at_most_once reveal0 revealBatches "hero" (by decide)

end PT
